import Mathlib

/-!
Shallow embedding of the clinic-report dashboard (Angular + Chart.js).

Sources embedded here:
* `src/unnamed/part_000` — `ClinicReportsService` (the Data Provider,
  `getClinicDataByPeriod` / `getDefaultData`);
* `src/unnamed/part_001` — `AppComponent` (the current revision of
  `app.component.ts` per `CHART_ARCHITECTURE.md`): the custom-label layout
  callbacks of `createVerticalStackedChart`, `createHorizontalScaleChart`,
  `createPieChart`, the chart lifecycle (`loadClinicData` /
  `initializeCharts`), and the export filename of `downloadImage`.

Modelling conventions:
* JavaScript numbers are modelled as exact rationals `ℚ`; where division can
  produce `NaN`/`Infinity` (the pie layout), numbers are modelled by `JSNum`
  which adds those values with IEEE-754 propagation rules for the operations
  the source uses.
* `Math.cos`/`Math.sin` are external library functions; all angles in the pie
  layout are rational multiples of π, so an angle is represented by its
  coefficient of π and the trig functions are taken as parameters
  `cosPi sinPi : ℚ → ℚ` (`cosPi q` models `Math.cos(q * Math.PI)`); `NaN` and
  `±Infinity` inputs yield `NaN`, as in IEEE-754.
* For the export filename, strings are modelled as `List Char` so that the
  `replace`/`slice` pipeline is a plain list computation.
-/

namespace ClinicReport

/-! ## Data model (`ClinicData` interface, src/unnamed/part_000 lines 7-25) -/

/-- `timeInRange` field group of the `ClinicData` interface. -/
structure TimeInRange where
  inRange : ℚ
  aboveRange : ℚ
  belowRange : ℚ
deriving DecidableEq, Repr

/-- `gmi.distribution` field group of the `ClinicData` interface. -/
structure GmiDistribution where
  optimal : ℚ
  suboptimal : ℚ
  poor : ℚ
deriving DecidableEq, Repr

/-- `gmi` field group of the `ClinicData` interface. -/
structure Gmi where
  average : ℚ
  distribution : GmiDistribution
deriving DecidableEq, Repr

/-- The `ClinicData` interface (the spec's MetricsSnapshot). -/
structure ClinicData where
  patientCount : ℚ
  reportingPeriod : String
  dateRange : String
  lastUpdated : String
  timeInRange : TimeInRange
  gmi : Gmi
deriving DecidableEq, Repr

/-! ## Data Provider (`ClinicReportsService`, src/unnamed/part_000) -/

/-- `fileMap` of `getClinicDataByPeriod`: period → JSON resource path. -/
def fileMap (period : ℤ) : Option String :=
  if period = 30 then some ("/resource/30day-results.json")
  else if period = 60 then some ("/resource/60day-results.json")
  else if period = 90 then some ("/resource/90day-results.json")
  else none

/-- `getDefaultData(period)`: the zero-valued fallback snapshot.  `now` stands
for `new Date().toLocaleString()`. -/
def getDefaultData (period : ℤ) (now : String) : ClinicData where
  patientCount := 0
  reportingPeriod := toString period ++ " days"
  dateRange := "No data available"
  lastUpdated := now
  timeInRange := ⟨0, 0, 0⟩
  gmi := ⟨0, ⟨0, 0, 0⟩⟩

/-- `getClinicDataByPeriod(period)`.  The HTTP transport is modelled by
`fetch : String → Option ClinicData` (`none` = transport or parse failure, the
`catchError` branch).  The returned `Bool` records whether a network request
was issued (`http.get` reached).  The function is total: no code path raises
to the caller. -/
def getClinicDataByPeriod (period : ℤ) (now : String)
    (fetch : String → Option ClinicData) : ClinicData × Bool :=
  match fileMap period with
  | none => (getDefaultData period now, false)
  | some path =>
    match fetch path with
    | some data => (data, true)
    | none => (getDefaultData period now, true)

/-! ## Shared layout geometry -/

/-- A Chart.js `chartArea` as read by the overlay callbacks (the source reads
`top`, `bottom`, `left`, `right` and `height` as independent fields). -/
structure ChartArea where
  top : ℚ
  bottom : ℚ
  left : ℚ
  right : ℚ
  height : ℚ
deriving DecidableEq, Repr

/-- One overlay label: text plus the `fillText` pixel position. -/
structure VLabel where
  text : String
  x : ℚ
  y : ℚ
deriving DecidableEq, Repr

/-! ## Vertical stacked chart overlay
(`createVerticalStackedChart` afterDraw, src/unnamed/part_001 lines 318-346) -/

/-- `value / 100 * chartArea.height` — one stacked segment's pixel height. -/
def segmentHeight (value total : ℚ) : ℚ :=
  value / 100 * total

/-- The `afterDraw` callback of `createVerticalStackedChart`: the four
`fillText` calls in source order.  `barX`/`barWidth` are `meta.data[0].x` and
`meta.data[0].width`. -/
def createVerticalStackedChart (tir : TimeInRange) (area : ChartArea)
    (barX barWidth : ℚ) : List VLabel :=
  let x := barX + barWidth / 2 + 30
  let total := area.height
  let belowHeight := segmentHeight tir.belowRange total
  let inRangeHeight := segmentHeight tir.inRange total
  let aboveHeight := segmentHeight tir.aboveRange total
  [⟨"2%", x, area.bottom - belowHeight / 2⟩,
   ⟨"82%", x, area.bottom - belowHeight - inRangeHeight / 2⟩,
   ⟨"1%", x, area.top + 15⟩,
   ⟨"15%", x, area.bottom - belowHeight - inRangeHeight - aboveHeight * (3/10)⟩]

/-- The stacked segment heights in stacking order
[belowRange, inRange, aboveRange], as computed by the callback. -/
def stackedSegmentHeights (tir : TimeInRange) (total : ℚ) : List ℚ :=
  [segmentHeight tir.belowRange total,
   segmentHeight tir.inRange total,
   segmentHeight tir.aboveRange total]

/-- Spec-side definition, from the claim's words: the vertically-centered
anchor of data segment `i` — draw-area bottom, minus the heights of the
segments stacked below `i`, minus half of segment `i`'s own height. -/
def claimedCenteredY (tir : TimeInRange) (area : ChartArea) (i : ℕ) : ℚ :=
  area.bottom - ((stackedSegmentHeights tir area.height).take i).sum
    - (stackedSegmentHeights tir area.height).getD i 0 / 2

/-! ## Horizontal scale chart overlay
(`createHorizontalScaleChart` afterDraw, src/unnamed/part_001 lines 429-478) -/

/-- The `ranges` array of the scale-label callback: tick value and fixed
proportional position. -/
def scaleRanges : List (ℕ × ℚ) :=
  [(40, 0), (54, 14/360), (70, 30/360), (180, 140/360), (240, 200/360), (400, 1)]

/-- The fixed segment widths of the scale bar's five datasets
(40-54, 54-70, 70-180, 180-240, 240-400), summing to 360. -/
def scaleSegmentWidths : List ℚ :=
  [14, 16, 110, 60, 160]

/-- The `afterDraw` tick labels of `createHorizontalScaleChart`:
`x = chartArea.left + totalWidth * position`, drawn at `chartArea.top - 8`. -/
def createHorizontalScaleChart (area : ChartArea) : List VLabel :=
  let totalWidth := area.right - area.left
  scaleRanges.map (fun r => ⟨toString r.1, area.left + totalWidth * r.2, area.top - 8⟩)

/-- The divider-line x positions of the same callback (after segments 1, 3, 5). -/
def scaleDividerXs (area : ChartArea) : List ℚ :=
  [14/360, 140/360, 1].map (fun p => area.left + (area.right - area.left) * p)

/-! ## JavaScript numbers with NaN / Infinity
(needed by the pie layout, where `value / total` can be `0/0`) -/

/-- A JavaScript number: `NaN`, a signed infinity (`inf true` = `+Infinity`),
or a finite value (negative zero is not distinguished; the source never
produces it). -/
inductive JSNum where
  | nan : JSNum
  | inf : Bool → JSNum
  | fin : ℚ → JSNum
deriving DecidableEq, Repr

/-- IEEE-754 addition as used by the source. -/
def jadd : JSNum → JSNum → JSNum
  | .nan, _ => .nan
  | _, .nan => .nan
  | .inf p, .inf q => if p = q then .inf p else .nan
  | .inf p, .fin _ => .inf p
  | .fin _, .inf q => .inf q
  | .fin a, .fin b => .fin (a + b)

/-- IEEE-754 multiplication as used by the source. -/
def jmul : JSNum → JSNum → JSNum
  | .nan, _ => .nan
  | _, .nan => .nan
  | .inf p, .inf q => .inf (p = q)
  | .inf p, .fin b => if b = 0 then .nan else .inf (p = decide (0 < b))
  | .fin a, .inf q => if a = 0 then .nan else .inf (q = decide (0 < a))
  | .fin a, .fin b => .fin (a * b)

/-- IEEE-754 division as used by the source; in particular `0/0 = NaN` and
`x/0 = ±Infinity` for finite `x ≠ 0`. -/
def jdiv : JSNum → JSNum → JSNum
  | .nan, _ => .nan
  | _, .nan => .nan
  | .inf _, .inf _ => .nan
  | .inf p, .fin b => if b = 0 then .inf p else .inf (p = decide (0 < b))
  | .fin _, .inf _ => .fin 0
  | .fin a, .fin b =>
    if b = 0 then (if a = 0 then .nan else .inf (decide (0 < a)))
    else .fin (a / b)

/-- `Math.cos` on an angle stored as its coefficient of π: `cosPi q` models
`Math.cos(q * Math.PI)`; `cos` of `NaN` or `±Infinity` is `NaN`. -/
def jcosPi (cosPi : ℚ → ℚ) : JSNum → JSNum
  | .fin q => .fin (cosPi q)
  | _ => .nan

/-- `Math.sin`, same representation as `jcosPi`. -/
def jsinPi (sinPi : ℚ → ℚ) : JSNum → JSNum
  | .fin q => .fin (sinPi q)
  | _ => .nan

/-! ## Pie chart overlay
(`createPieChart` afterDraw, src/unnamed/part_001 lines 576-675) -/

/-- One pie overlay label: text, the `fillText`/disc position
`(labelX, labelY - 5)` (always finite — it is built from constants only), and
the connector polyline waypoints in path order (`moveTo` then `lineTo`s). -/
structure PieLabel where
  text : String
  anchor : ℚ × ℚ
  connector : List (JSNum × JSNum)
deriving DecidableEq, Repr

/-- String coercion `value + '%'` of a JS number onto a label.  Integer-valued
numbers print as their decimal digits, like JavaScript; the dashboard's
percentages are integers, so the non-integral branch is never exercised by the
claims (JavaScript's decimal formatting is not reproduced there). -/
def jsNumToStr (q : ℚ) : String :=
  if q.den = 1 then toString q.num else toString q.num ++ "/" ++ toString q.den

/-- The fixed, hand-assigned label position `(labelX, labelY)` for segment
`index` (left side / right side / bottom right). -/
def pieAnchorBase (cx cy : ℚ) : ℕ → ℚ × ℚ
  | 0 => (cx - 140, cy - 10)
  | 1 => (cx + 130, cy + 20)
  | _ => (cx + 110, cy + 90)

/-- The fixed elbow waypoint `(midX2, midY2)` for segment `index`. -/
def pieElbow (cx cy : ℚ) : ℕ → ℚ × ℚ
  | 0 => (cx - 110, cy - 10)
  | 1 => (cx + 100, cy + 20)
  | _ => (cx + 80, cy + 75)

/-- The radial offset added to `radius` for `(midX1, midY1)`
(25 for segments 0 and 2, 30 for segment 1). -/
def pieMidOffset : ℕ → ℚ
  | 1 => 30
  | _ => 25

/-- One iteration of the `segments.forEach` body: computes the segment's
angular span (`value / total * 2π`, as a coefficient of π), the label angle at
the span's midpoint, the connector waypoints, and the advanced running angle.
`radius = 60` as in the source. -/
def pieSegment (cosPi sinPi : ℚ → ℚ) (cx cy total : ℚ) (index : ℕ) (value : ℚ)
    (currentAngle : JSNum) : PieLabel × JSNum :=
  let segmentAngle := jmul (jdiv (.fin value) (.fin total)) (.fin 2)
  let labelAngle := jadd currentAngle (jdiv segmentAngle (.fin 2))
  let innerX := jadd (.fin cx) (jmul (jcosPi cosPi labelAngle) (.fin 60))
  let innerY := jadd (.fin cy) (jmul (jsinPi sinPi labelAngle) (.fin 60))
  let base := pieAnchorBase cx cy index
  let elbow := pieElbow cx cy index
  let midX1 := jadd (.fin cx) (jmul (jcosPi cosPi labelAngle) (.fin (60 + pieMidOffset index)))
  let midY1 := jadd (.fin cy) (jmul (jsinPi sinPi labelAngle) (.fin (60 + pieMidOffset index)))
  let anchor := (base.1, base.2 - 5)
  (⟨jsNumToStr value ++ "%", anchor,
    [(innerX, innerY), (midX1, midY1), (.fin elbow.1, .fin elbow.2),
     (.fin anchor.1, .fin anchor.2), (.fin anchor.1, .fin anchor.2)]⟩,
   jadd currentAngle segmentAngle)

/-- The `afterDraw` callback of `createPieChart`: three segments processed in
order with a running start angle `-π/2 + rotation·π/180` (as a coefficient of
π: `rotation/180 - 1/2`; the source's rotation constant is 150).  `width` and
`height` are `chart.width`/`chart.height`. -/
def createPieChart (rotation : ℚ) (cosPi sinPi : ℚ → ℚ) (dist : GmiDistribution)
    (width height : ℚ) : List PieLabel :=
  let cx := width / 2
  let cy := height / 2
  let total := dist.optimal + dist.suboptimal + dist.poor
  let start : JSNum := .fin (rotation / 180 - 1/2)
  let s0 := pieSegment cosPi sinPi cx cy total 0 dist.optimal start
  let s1 := pieSegment cosPi sinPi cx cy total 1 dist.suboptimal s0.2
  let s2 := pieSegment cosPi sinPi cx cy total 2 dist.poor s1.2
  [s0.1, s1.1, s2.1]

/-! ## Chart lifecycle
(`loadClinicData` next-handler and `initializeCharts`,
src/unnamed/part_001 lines 53-74 and 232-242) -/

/-- A live Chart.js instance held in `this.charts`, tagged with the data
generation (period-load) that created it and the canvas it is bound to. -/
structure ChartHandle where
  gen : ℕ
  surfaceId : String
deriving DecidableEq, Repr

/-- The five canvas ids the five `create*Chart` methods look up, in
`initializeCharts` order. -/
def surfaceIds : List String :=
  ["timeInRangeVerticalStacked", "timeInRangeHorizontalScale",
   "timeInRangeHorizontal", "gmiPieChart", "gmiRanges"]

/-- `initializeCharts`: each `create*Chart` method returns silently when
`document.getElementById` finds no canvas (`if (!ctx) return;`), otherwise it
constructs a chart and pushes it onto `this.charts`. -/
def initializeCharts (gen : ℕ) (present : String → Bool) : List ChartHandle :=
  surfaceIds.filterMap (fun i => if present i then some ⟨gen, i⟩ else none)

/-- The `next` handler of `loadClinicData`'s subscription: every existing
chart is destroyed, `this.charts` is reset to `[]`, and `initializeCharts`
rebuilds it for the newly loaded data (generation `gen`).  The result is the
`this.charts` list after the switch completes. -/
def loadClinicDataNext (oldCharts : List ChartHandle) (gen : ℕ)
    (present : String → Bool) : List ChartHandle :=
  let afterDestroy : List ChartHandle := []
  afterDestroy ++ initializeCharts gen present

/-! ## Export filename (`downloadImage`, src/unnamed/part_001 lines 212-230) -/

/-- A capture timestamp broken into the fields `Date#toISOString` prints.
A JavaScript `Date` always has `month ≤ 12`, `ms ≤ 999`, etc.; the model
renders the low-order digits of each field exactly as `toISOString` does for
such values. -/
structure DateTime where
  year : ℕ
  month : ℕ
  day : ℕ
  hour : ℕ
  minute : ℕ
  second : ℕ
  ms : ℕ
deriving DecidableEq, Repr

/-- The decimal digit character of `n mod 10`. -/
def jsDigit (n : ℕ) : Char := Nat.digitChar (n % 10)

/-- Two-digit zero-padded field, as printed by `toISOString`. -/
def pad2 (n : ℕ) : List Char := [jsDigit (n / 10), jsDigit n]

/-- Three-digit zero-padded milliseconds field. -/
def pad3 (n : ℕ) : List Char := [jsDigit (n / 100), jsDigit (n / 10), jsDigit n]

/-- Four-digit zero-padded year field. -/
def pad4 (n : ℕ) : List Char :=
  [jsDigit (n / 1000), jsDigit (n / 100), jsDigit (n / 10), jsDigit n]

/-- `new Date().toISOString()`: `YYYY-MM-DDTHH:mm:ss.sssZ`, as characters. -/
def toISOStringChars (t : DateTime) : List Char :=
  pad4 t.year ++ ['-'] ++ pad2 t.month ++ ['-'] ++ pad2 t.day ++ ['T'] ++
    pad2 t.hour ++ [':'] ++ pad2 t.minute ++ [':'] ++ pad2 t.second ++ ['.'] ++
    pad3 t.ms ++ ['Z']

/-- One character of `.replace(/[:.]/g, '-')`. -/
def replaceColonDot (c : Char) : Char :=
  if c = ':' ∨ c = '.' then '-' else c

/-- `.replace(/[:.]/g, '-')`: global character replacement. -/
def jsReplaceAll (s : List Char) : List Char := s.map replaceColonDot

/-- `.slice(0, -5)`: everything but the last five characters. -/
def jsSliceToNegFive (s : List Char) : List Char := s.take (s.length - 5)

/-- `downloadImage`'s `link.download` value:
`clinic-outcomes-${timestamp}.png` with
`timestamp = new Date().toISOString().replace(/[:.]/g, '-').slice(0, -5)`. -/
def downloadFilename (t : DateTime) : List Char :=
  ("clinic-outcomes-").data ++ jsSliceToNegFive (jsReplaceAll (toISOStringChars t))
    ++ (".png").data

/-- Spec-side definition, from the claim's words: the ISO-8601 timestamp
truncated to whole seconds (no milliseconds, no `Z`). -/
def isoTruncatedToSeconds (t : DateTime) : List Char :=
  pad4 t.year ++ ['-'] ++ pad2 t.month ++ ['-'] ++ pad2 t.day ++ ['T'] ++
    pad2 t.hour ++ [':'] ++ pad2 t.minute ++ [':'] ++ pad2 t.second

/-- Spec-side definition, from the claim's words: `clinic-outcomes-` followed
by the truncated ISO timestamp with every colon and dot replaced by a dash,
followed by `.png`. -/
def claimedFilename (t : DateTime) : List Char :=
  ("clinic-outcomes-").data ++ jsReplaceAll (isoTruncatedToSeconds t) ++ (".png").data

/-! ## Helper lemmas -/

@[simp]
theorem jadd_nan_left (y : JSNum) : jadd .nan y = .nan := by cases y <;> rfl

@[simp]
theorem jadd_nan_right (x : JSNum) : jadd x .nan = .nan := by cases x <;> rfl

@[simp]
theorem jmul_nan_left (y : JSNum) : jmul .nan y = .nan := by cases y <;> rfl

@[simp]
theorem jmul_nan_right (x : JSNum) : jmul x .nan = .nan := by cases x <;> rfl

@[simp]
theorem jdiv_nan_left (y : JSNum) : jdiv .nan y = .nan := by cases y <;> rfl

@[simp]
theorem jdiv_zero_zero : jdiv (.fin 0) (.fin 0) = .nan := by
  simp [jdiv]

@[simp]
theorem jcosPi_nan (cosPi : ℚ → ℚ) : jcosPi cosPi .nan = .nan := rfl

@[simp]
theorem jsinPi_nan (sinPi : ℚ → ℚ) : jsinPi sinPi .nan = .nan := rfl

theorem replaceColonDot_jsDigit (n : ℕ) : replaceColonDot (jsDigit n) = jsDigit n := by
  have h : n % 10 < 10 := Nat.mod_lt _ (by norm_num)
  unfold jsDigit replaceColonDot
  set m := n % 10 with hm
  interval_cases m <;> decide

theorem replaceColonDot_dash : replaceColonDot '-' = '-' := by decide

theorem replaceColonDot_T : replaceColonDot 'T' = 'T' := by decide

theorem replaceColonDot_Z : replaceColonDot 'Z' = 'Z' := by decide

theorem replaceColonDot_colon : replaceColonDot ':' = '-' := by decide

theorem replaceColonDot_dot : replaceColonDot '.' = '-' := by decide

theorem filterMap_present_map_surface (gen : ℕ) (present : String → Bool) :
    ∀ l : List String,
      ((l.filterMap fun i => if present i then some (⟨gen, i⟩ : ChartHandle) else none).map
        ChartHandle.surfaceId) = l.filter present := by
  intro l
  induction l with
  | nil => rfl
  | cons a tl ih =>
    cases hp : present a <;>
      simp [List.filterMap_cons, List.filter_cons, hp, ih]

theorem filterMap_present_all_gen (gen : ℕ) (present : String → Bool) :
    ∀ l : List String,
      ((l.filterMap fun i => if present i then some (⟨gen, i⟩ : ChartHandle) else none).all
        fun hnd => hnd.gen == gen) = true := by
  intro l
  induction l with
  | nil => rfl
  | cons a tl ih =>
    cases hp : present a <;>
      simp_all [List.filterMap_cons]

/-! ## Claim theorems -/

/-- C1: at `total == 0` the pie overlay does NOT skip connector/angle
computation: `0/0` yields `NaN`, and every label's connector starts at a `NaN`
waypoint (`moveTo(NaN, NaN)`), while the three label anchors themselves remain
at their fixed finite positions.  This exhibits the code's divergence from the
claimed zero-length-connector fallback. -/
theorem pie_total_zero_emits_nan_connectors (cosPi sinPi : ℚ → ℚ) (w h : ℚ) :
    ((createPieChart 150 cosPi sinPi ⟨0, 0, 0⟩ w h).map fun l => l.connector.head?) =
      [some (JSNum.nan, JSNum.nan), some (JSNum.nan, JSNum.nan),
       some (JSNum.nan, JSNum.nan)] ∧
    (createPieChart 150 cosPi sinPi ⟨0, 0, 0⟩ w h).map PieLabel.anchor =
      [(w/2 - 140, h/2 - 15), (w/2 + 130, h/2 + 15), (w/2 + 110, h/2 + 85)] := by
  constructor
  · simp [createPieChart, pieSegment]
  · simp [createPieChart, pieSegment, pieAnchorBase]
    refine ⟨by ring, by ring, by ring⟩

/-- C2 counterexample: on snapshot `{belowRange:2, inRange:82, aboveRange:15}`
and a 200px-high draw area, the aboveRange ("15%") label is drawn at
`y = 23` (30% of its segment height above the segment base), not at the
vertically-centered `y = 17` the claim demands. -/
theorem vertical_above_label_not_centered :
    ((createVerticalStackedChart ⟨82, 15, 2⟩ ⟨0, 200, 0, 0, 200⟩ 0 0).map VLabel.y).getD 3 0
      = 23 ∧
    claimedCenteredY ⟨82, 15, 2⟩ ⟨0, 200, 0, 0, 200⟩ 2 = 17 ∧
    ((createVerticalStackedChart ⟨82, 15, 2⟩ ⟨0, 200, 0, 0, 200⟩ 0 0).map VLabel.y).getD 3 0
      ≠ claimedCenteredY ⟨82, 15, 2⟩ ⟨0, 200, 0, 0, 200⟩ 2 := by
  refine ⟨?_, ?_, ?_⟩ <;>
    norm_num [createVerticalStackedChart, claimedCenteredY, stackedSegmentHeights,
      segmentHeight]

/-- C2 amended: the stacked-bar overlay stacks bottom-up in the order
[belowRange, inRange, aboveRange, veryHigh] with heights `v/100 * height`; the
belowRange and inRange labels are vertically centered within their own segment
spans (bottom minus the cumulative height below minus half the own height),
the aboveRange label sits at 30% (not half) of its own height above its
segment base, and the very-high label is pinned at `top + 15`; all labels
share `x = barX + barWidth/2 + 30`. -/
theorem vertical_stacked_layout_amended (tir : TimeInRange) (area : ChartArea)
    (barX barWidth : ℚ) :
    (createVerticalStackedChart tir area barX barWidth).map VLabel.text =
      ["2%", "82%", "1%", "15%"] ∧
    (createVerticalStackedChart tir area barX barWidth).map VLabel.x =
      [barX + barWidth/2 + 30, barX + barWidth/2 + 30, barX + barWidth/2 + 30,
       barX + barWidth/2 + 30] ∧
    ((createVerticalStackedChart tir area barX barWidth).map VLabel.y).getD 0 0 =
      area.bottom - (((stackedSegmentHeights tir area.height).take 0).sum +
        (stackedSegmentHeights tir area.height).getD 0 0 / 2) ∧
    ((createVerticalStackedChart tir area barX barWidth).map VLabel.y).getD 1 0 =
      area.bottom - (((stackedSegmentHeights tir area.height).take 1).sum +
        (stackedSegmentHeights tir area.height).getD 1 0 / 2) ∧
    ((createVerticalStackedChart tir area barX barWidth).map VLabel.y).getD 3 0 =
      area.bottom - (((stackedSegmentHeights tir area.height).take 2).sum +
        (stackedSegmentHeights tir area.height).getD 2 0 * (3/10)) ∧
    ((createVerticalStackedChart tir area barX barWidth).map VLabel.y).getD 2 0 =
      area.top + 15 := by
  refine ⟨rfl, rfl, ?_, ?_, ?_, rfl⟩ <;>
    simp [createVerticalStackedChart, stackedSegmentHeights, segmentHeight] <;>
    ring

/-- C3: the Data Provider `getClinicDataByPeriod` never raises: when every
fetch fails it returns the zero-valued default stamped `"<period> days"`; for
a period outside {30, 60, 90} it returns the default without issuing any
network request; and the default snapshot's numeric fields are all zero. -/
theorem resolve_period_fallback (period : ℤ) (now : String)
    (fetch : String → Option ClinicData) :
    ((∀ p, fetch p = none) →
      (getClinicDataByPeriod period now fetch).1 = getDefaultData period now ∧
      (getClinicDataByPeriod period now fetch).1.reportingPeriod =
        toString period ++ " days") ∧
    (period ≠ 30 → period ≠ 60 → period ≠ 90 →
      getClinicDataByPeriod period now fetch = (getDefaultData period now, false)) ∧
    (getDefaultData period now).patientCount = 0 ∧
    (getDefaultData period now).timeInRange = ⟨0, 0, 0⟩ ∧
    (getDefaultData period now).gmi = ⟨0, ⟨0, 0, 0⟩⟩ ∧
    (getDefaultData period now).reportingPeriod = toString period ++ " days" := by
  refine ⟨?_, ?_, rfl, rfl, rfl, rfl⟩
  · intro hfail
    unfold getClinicDataByPeriod fileMap
    split_ifs <;> simp [hfail, getDefaultData]
  · intro h30 h60 h90
    unfold getClinicDataByPeriod fileMap
    rw [if_neg h30, if_neg h60, if_neg h90]

/-- C3 witness: a simulated universal fetch failure at period 60 yields
`reportingPeriod == "60 days"`, and the unknown period 45 yields the default
with no network call. -/
theorem resolve_period_fallback_witness :
    (getClinicDataByPeriod 60 ("now") (fun _ => none)).1.reportingPeriod = "60 days" ∧
    getClinicDataByPeriod 45 ("now") (fun _ => none) =
      (getDefaultData 45 ("now"), false) :=
  ⟨((resolve_period_fallback 60 ("now") (fun _ => none)).1 (fun _ => rfl)).2,
   (resolve_period_fallback 45 ("now") (fun _ => none)).2.1
     (by decide) (by decide) (by decide)⟩

/-- C4: the six scale-ruler tick labels are {40, 54, 70, 180, 240, 400}, the
x of tick i is `left + (cumulative width of segments before i)/360 * width`
for the fixed widths {14, 16, 110, 60, 160}, and for a non-negative draw
width the positions are monotonically non-decreasing left-to-right. -/
theorem scale_tick_positions (area : ChartArea) :
    (createHorizontalScaleChart area).map VLabel.text =
      ["40", "54", "70", "180", "240", "400"] ∧
    (createHorizontalScaleChart area).map VLabel.x =
      [area.left + ((scaleSegmentWidths.take 0).sum / 360) * (area.right - area.left),
       area.left + ((scaleSegmentWidths.take 1).sum / 360) * (area.right - area.left),
       area.left + ((scaleSegmentWidths.take 2).sum / 360) * (area.right - area.left),
       area.left + ((scaleSegmentWidths.take 3).sum / 360) * (area.right - area.left),
       area.left + ((scaleSegmentWidths.take 4).sum / 360) * (area.right - area.left),
       area.left + ((scaleSegmentWidths.take 5).sum / 360) * (area.right - area.left)] ∧
    (0 ≤ area.right - area.left →
      List.Chain' (· ≤ ·) ((createHorizontalScaleChart area).map VLabel.x)) := by
  refine ⟨rfl, ?_, ?_⟩
  · simp [createHorizontalScaleChart, scaleRanges, scaleSegmentWidths]
    norm_num
    refine ⟨by ring, by ring, by ring, by ring⟩
  · intro hw
    simp [createHorizontalScaleChart, scaleRanges, List.chain'_cons]
    refine ⟨?_, ?_, ?_, ?_, ?_⟩ <;> linarith

/-- C4 witness: on a concrete draw area of width 360 the tick positions are
monotonically non-decreasing. -/
theorem scale_tick_positions_witness :
    List.Chain' (· ≤ ·) ((createHorizontalScaleChart ⟨0, 0, 0, 360, 0⟩).map VLabel.x) :=
  (scale_tick_positions ⟨0, 0, 0, 360, 0⟩).2.2 (by norm_num)

/-- C5: for every distribution the pie overlay emits exactly three labels,
text `value + "%"`, at the fixed hand-assigned anchors (left, right,
lower-right) that are independent of the rotation constant, of the trig
functions (hence of the segments' midpoint angles), and of the data values;
on {optimal:72, suboptimal:23, poor:5} the texts are "72%", "23%", "5%". -/
theorem pie_labels_fixed_anchors (rot rot2 : ℚ) (cosPi sinPi cosPi2 sinPi2 : ℚ → ℚ)
    (d d2 : GmiDistribution) (w h : ℚ) :
    (createPieChart rot cosPi sinPi d w h).length = 3 ∧
    (createPieChart rot cosPi sinPi d w h).map PieLabel.text =
      [jsNumToStr d.optimal ++ "%", jsNumToStr d.suboptimal ++ "%",
       jsNumToStr d.poor ++ "%"] ∧
    (createPieChart rot cosPi sinPi d w h).map PieLabel.anchor =
      [(w/2 - 140, h/2 - 15), (w/2 + 130, h/2 + 15), (w/2 + 110, h/2 + 85)] ∧
    (createPieChart rot cosPi sinPi d w h).map PieLabel.anchor =
      (createPieChart rot2 cosPi2 sinPi2 d2 w h).map PieLabel.anchor ∧
    (createPieChart 150 cosPi sinPi ⟨72, 23, 5⟩ w h).map PieLabel.text =
      ["72%", "23%", "5%"] := by
  refine ⟨rfl, rfl, ?_, rfl, ?_⟩
  · simp [createPieChart, pieSegment, pieAnchorBase]
    refine ⟨by ring, by ring, by ring⟩
  · simp [createPieChart, pieSegment, jsNumToStr]
    refine ⟨by decide, by decide, by decide⟩

/-- C6: if the three timeInRange percentages sum to exactly 100, the three
stacked segment pixel heights (`v/100 * height`) sum to exactly the draw-area
height. -/
theorem stacked_heights_sum_to_height (tir : TimeInRange) (area : ChartArea)
    (hsum : tir.belowRange + tir.inRange + tir.aboveRange = 100) :
    (stackedSegmentHeights tir area.height).sum = area.height := by
  simp [stackedSegmentHeights, segmentHeight]
  linear_combination (area.height / 100) * hsum

/-- C6 witness: {belowRange:2, inRange:83, aboveRange:15} on a 200px-high
draw area gives segment heights summing to 200. -/
theorem stacked_heights_sum_to_height_witness :
    (stackedSegmentHeights ⟨83, 15, 2⟩ (⟨0, 200, 0, 0, 200⟩ : ChartArea).height).sum =
      (⟨0, 200, 0, 0, 200⟩ : ChartArea).height :=
  stacked_heights_sum_to_height ⟨83, 15, 2⟩ ⟨0, 200, 0, 0, 200⟩ (by norm_num)

/-- C7: after a period switch completes, the live chart list holds exactly one
handle per present drawing surface (at most 5, absent canvases skipped
silently), every handle belongs to the new load generation, and the result is
independent of (references none of) the previous period's handles. -/
theorem lifecycle_after_period_switch (old : List ChartHandle) (gen : ℕ)
    (present : String → Bool) :
    (loadClinicDataNext old gen present).map ChartHandle.surfaceId =
      surfaceIds.filter present ∧
    (loadClinicDataNext old gen present).length = (surfaceIds.filter present).length ∧
    (loadClinicDataNext old gen present).length ≤ 5 ∧
    ((loadClinicDataNext old gen present).all fun hnd => hnd.gen == gen) = true ∧
    loadClinicDataNext old gen present = loadClinicDataNext [] gen present := by
  have hmap := filterMap_present_map_surface gen present surfaceIds
  have hall := filterMap_present_all_gen gen present surfaceIds
  have hlen : (loadClinicDataNext old gen present).length =
      (surfaceIds.filter present).length := by
    rw [← hmap]
    simp [loadClinicDataNext, initializeCharts]
  refine ⟨hmap, hlen, ?_, hall, rfl⟩
  rw [hlen]
  calc (surfaceIds.filter present).length ≤ surfaceIds.length :=
        List.length_filter_le _ _
    _ = 5 := rfl

/-- C8: each layout variant is a pure function of its snapshot slice and draw
geometry (plus the runtime's fixed trig functions): two invocations with
identical inputs produce identical label sequences — there is no hidden or
accumulated state in the embedding. -/
theorem layout_functions_deterministic (tir tir2 : TimeInRange) (area area2 : ChartArea)
    (bx bx2 bw bw2 rot rot2 wd wd2 ht ht2 : ℚ) (cosPi cosPi2 sinPi sinPi2 : ℚ → ℚ)
    (d d2 : GmiDistribution)
    (h1 : tir = tir2) (h2 : area = area2) (h3 : bx = bx2) (h4 : bw = bw2)
    (h5 : rot = rot2) (h6 : cosPi = cosPi2) (h7 : sinPi = sinPi2) (h8 : d = d2)
    (h9 : wd = wd2) (h10 : ht = ht2) :
    createVerticalStackedChart tir area bx bw =
      createVerticalStackedChart tir2 area2 bx2 bw2 ∧
    createPieChart rot cosPi sinPi d wd ht =
      createPieChart rot2 cosPi2 sinPi2 d2 wd2 ht2 := by
  subst_vars
  exact ⟨rfl, rfl⟩

/-- C8 witness: the determinism theorem applied at a concrete snapshot and
geometry. -/
theorem layout_functions_deterministic_witness :
    createVerticalStackedChart ⟨82, 15, 2⟩ ⟨0, 200, 0, 0, 200⟩ 0 0 =
      createVerticalStackedChart ⟨82, 15, 2⟩ ⟨0, 200, 0, 0, 200⟩ 0 0 ∧
    createPieChart 150 (fun _ => 0) (fun _ => 0) ⟨72, 23, 5⟩ 400 300 =
      createPieChart 150 (fun _ => 0) (fun _ => 0) ⟨72, 23, 5⟩ 400 300 :=
  layout_functions_deterministic ⟨82, 15, 2⟩ ⟨82, 15, 2⟩ ⟨0, 200, 0, 0, 200⟩
    ⟨0, 200, 0, 0, 200⟩ 0 0 0 0 150 150 400 400 300 300 (fun _ => 0) (fun _ => 0)
    (fun _ => 0) (fun _ => 0) ⟨72, 23, 5⟩ ⟨72, 23, 5⟩
    rfl rfl rfl rfl rfl rfl rfl rfl rfl rfl

/-- C9: for every capture timestamp the export filename is
`clinic-outcomes-` ++ (the ISO-8601 timestamp with every colon and dot
replaced by a dash, truncated to whole seconds) ++ `.png`. -/
theorem download_filename_matches_claim (t : DateTime) :
    downloadFilename t = claimedFilename t := by
  have hA : jsReplaceAll (toISOStringChars t) =
      jsReplaceAll (isoTruncatedToSeconds t) ++ ('-' :: (pad3 t.ms ++ ['Z'])) := by
    simp [jsReplaceAll, toISOStringChars, isoTruncatedToSeconds, pad4, pad2, pad3,
      replaceColonDot_jsDigit, replaceColonDot_dash, replaceColonDot_T,
      replaceColonDot_Z, replaceColonDot_colon, replaceColonDot_dot]
  have hslice : jsSliceToNegFive (jsReplaceAll (toISOStringChars t)) =
      jsReplaceAll (isoTruncatedToSeconds t) := by
    rw [jsSliceToNegFive, hA]
    simp [pad3]
  rw [downloadFilename, hslice, claimedFilename]

/-- C10: the vertical stacked-bar overlay's label texts are the constant
strings "2%", "82%", "1%", "15%" for every snapshot; two runs on different
timeInRange triples agree on all texts and on all x coordinates (only the y
anchors depend on the data). -/
theorem vertical_labels_constant_text (tir tir2 : TimeInRange) (area : ChartArea)
    (bx bw : ℚ) :
    (createVerticalStackedChart tir area bx bw).map VLabel.text =
      ["2%", "82%", "1%", "15%"] ∧
    (createVerticalStackedChart tir area bx bw).map VLabel.text =
      (createVerticalStackedChart tir2 area bx bw).map VLabel.text ∧
    (createVerticalStackedChart tir area bx bw).map VLabel.x =
      (createVerticalStackedChart tir2 area bx bw).map VLabel.x :=
  ⟨rfl, rfl, rfl⟩

end ClinicReport
